import Mathlib

/-!
Verification of the MySQL MCP server core (src/mysql_mcp_server.py).

The Python source is shallowly embedded: pure computations become Lean
functions; the database driver, the SQLAlchemy inspector and the pool are
abstracted as explicit function arguments or, where the spec is the only
description available, modelled from the spec (each such definition says so
in its doc comment). Machine integers in the source are Python arbitrary
precision integers, so Int/Nat need no overflow treatment.

Definitions come first, theorems after.
-/

namespace MySQLMCP

/-- A scalar cell value of a result row (Python values in the row dicts). -/
inductive Value where
  | vNull
  | vInt (i : Int)
  | vStr (s : String)
  | vBool (b : Bool)
  deriving DecidableEq

/-- A row as materialized by dict(row._mapping): a mapping from column name
to value, embedded as an association list. -/
abbrev Row := List (String × Value)

/-- A database-originated failure (the Exception caught and re-raised by
every operation). -/
structure DbError where
  msg : String
  deriving DecidableEq

/-- Embeds QueryParams (lines 112-115): query text plus optional named
parameters (a Python dict, embedded as an association list). -/
structure QueryParams where
  query : String
  params : Option (List (String × Value))
  deriving DecidableEq

/-- Embeds the truncation block shared by execute_query (lines 169-171) and
get_table_data (lines 219-221): if len(rows) > MAX_RESULT_ROWS the rows are
cut to the first MAX_RESULT_ROWS and logger.warning is called. The Bool
records whether the warning was emitted; no exception is raised and no flag
is attached to the returned rows. -/
def truncate_rows_log (maxRows : Nat) (rows : List Row) : List Row × Bool :=
  if rows.length > maxRows then (rows.take maxRows, true) else (rows, false)

/-- The rows actually returned by the truncation block (the warning is a log
side effect only). -/
def truncate_rows (maxRows : Nat) (rows : List Row) : List Row :=
  (truncate_rows_log maxRows rows).1

/-- Embeds the conn.execute call of execute_query (lines 163-166): the SQL
text handed to the driver is exactly query_params.query, and the bound
parameter set is query_params.params or the empty dict. -/
def driverCallOfQuery (qp : QueryParams) : String × List (String × Value) :=
  (qp.query, qp.params.getD [])

/-- Embeds execute_query (lines 158-177). The driver (conn.execute plus row
materialization) is abstracted as the argument run; maxRows is
config.MAX_RESULT_ROWS. On driver failure the exception is logged and
re-raised unmodified. -/
def execute_query (maxRows : Nat)
    (run : String → List (String × Value) → Except DbError (List Row))
    (qp : QueryParams) : Except DbError (List Row) :=
  match run (driverCallOfQuery qp).1 (driverCallOfQuery qp).2 with
  | .ok rows => .ok (truncate_rows maxRows rows)
  | .error e => .error e

/-- Embeds TableQueryParams after pydantic validation (lines 117-124):
limit and offset hold their post-default values. -/
structure TableQueryParams where
  table_name : String
  columns : Option (List String)
  whereClause : Option String
  order_by : Option String
  limit : Int
  offset : Int
  deriving DecidableEq

/-- Embeds the query construction of get_table_data (lines 202-213),
including the Python truthiness tests: an empty columns list falls back to
["*"], and empty where/order_by strings are not appended. -/
def build_query (p : TableQueryParams) : String :=
  let columns := match p.columns with
    | some cs => if cs = [] then ["*"] else cs
    | none => ["*"]
  let column_list := String.intercalate ", " columns
  let q := "SELECT " ++ column_list ++ " FROM " ++ p.table_name
  let q := match p.whereClause with
    | some w => if w = "" then q else q ++ " WHERE " ++ w
    | none => q
  let q := match p.order_by with
    | some o => if o = "" then q else q ++ " ORDER BY " ++ o
    | none => q
  q ++ " LIMIT " ++ toString p.limit ++ " OFFSET " ++ toString p.offset

/-- Embeds get_table_data (lines 198-227): build the SQL by string
composition, execute it (driver abstracted as run), truncate, or log and
re-raise the driver failure unmodified. -/
def get_table_data (maxRows : Nat)
    (run : String → Except DbError (List Row))
    (p : TableQueryParams) : Except DbError (List Row) :=
  match run (build_query p) with
  | .ok rows => .ok (truncate_rows maxRows rows)
  | .error e => .error e

/-- The success payload of execute_write (lines 189-193): status, affected
row count (result.rowcount) and result.lastrowid. -/
structure WriteResult where
  status : String
  affected_rows : Int
  lastrowid : Option Int
  deriving DecidableEq

/-- Embeds the conn.execute call of execute_write (lines 184-187): the SQL
text handed to the driver is exactly query_params.query; parameters are
passed separately, defaulting to the empty dict. -/
def driverCallOfWrite (qp : QueryParams) : String × List (String × Value) :=
  (qp.query, qp.params.getD [])

/-- Modelled from the spec: the commit/rollback contract of the
engine.begin() block (SQLAlchemy library code, not under src/) — the
transaction commits on normal exit and rolls back when the body raises
(spec section 4.2). Around that contract this embeds execute_write
(lines 179-196): the statement runs against the state db via exec (the
driver, returning the tentative new state, rowcount and lastrowid); on
success the new state is committed and the WriteResult returned; on failure
the state is rolled back to db and the exception logged and re-raised. The
first component of the result is the database state after the call. -/
def execute_write {σ : Type}
    (exec : String → List (String × Value) → σ → Except DbError (σ × Int × Option Int))
    (qp : QueryParams) (db : σ) : σ × Except DbError WriteResult :=
  match exec (driverCallOfWrite qp).1 (driverCallOfWrite qp).2 db with
  | .ok (db2, n, lid) => (db2, .ok ⟨"success", n, lid⟩)
  | .error e => (db, .error e)

/-- A raw column record as produced by the SQLAlchemy inspector: name, the
textual rendering of the native type, nullability, default, and an optional
comment (absent keys read via col.get). -/
structure ColumnRaw where
  name : String
  type : String
  nullable : Bool
  default : Option Value
  comment : Option String
  deriving DecidableEq

/-- A column descriptor as built by describe_table (lines 144-150). -/
structure ColumnDescriptor where
  name : String
  type : String
  nullable : Bool
  default : Option Value
  comment : String
  deriving DecidableEq

/-- Embeds the per-column dict construction of describe_table
(lines 144-150): a missing comment becomes the empty string. -/
def describe_row (col : ColumnRaw) : ColumnDescriptor :=
  ⟨col.name, col.type, col.nullable, col.default, col.comment.getD ""⟩

/-- Embeds list_tables (lines 126-136): the inspector call
(get_table_names) is abstracted as the argument; its result is returned on
success and its exception logged and re-raised unmodified. -/
def list_tables (getNames : Except DbError (List String)) :
    Except DbError (List String) :=
  match getNames with
  | .ok tables => .ok tables
  | .error e => .error e

/-- Embeds describe_table (lines 138-156): inspector.get_columns is
abstracted as getCols; on success each raw column is rendered by
describe_row, on failure the exception is logged and re-raised
unmodified. -/
def describe_table (getCols : String → Except DbError (List ColumnRaw))
    (table_name : String) : Except DbError (List ColumnDescriptor) :=
  match getCols table_name with
  | .ok cols => .ok (cols.map describe_row)
  | .error e => .error e

/-- Modelled from the spec: SQLAlchemy Inspector.get_columns for the MySQL
dialect is library code not under src/; per the spec (section 8,
describe_table on a nonexistent table surfaces QueryFailed rather than an
empty list) it raises for a table absent from the catalog, here embedded
over a catalog given as an association list from table name to columns. -/
def inspector_get_columns (catalog : List (String × List ColumnRaw))
    (t : String) : Except DbError (List ColumnRaw) :=
  match catalog.lookup t with
  | some cols => .ok cols
  | none => .error ⟨"NoSuchTableError: " ++ t⟩

/-- A request-validation failure (pydantic rejecting the arguments before
the tool body runs). -/
structure ValidationError where
  msg : String
  deriving DecidableEq

/-- A raw, not yet validated get_table_data argument payload: each field as
provided by the caller, none when omitted. -/
structure RawTableQuery where
  table_name : String
  columns : Option (List String)
  whereClause : Option String
  order_by : Option String
  limit : Option Int
  offset : Option Int
  deriving DecidableEq

/-- Modelled from the spec: pydantic's enforcement of the declared Field
constraints is library code not under src/; the constraints themselves are
declared in src lines 117-124 — limit: int = Field(100, ge=1, le=1000) and
offset: int = 0, with no constraint declared on offset. A provided limit
outside [1,1000] is rejected; an omitted limit defaults to 100 and an
omitted offset to 0. -/
def TableQueryParams.validate (raw : RawTableQuery) :
    Except ValidationError TableQueryParams :=
  let limit := raw.limit.getD 100
  if 1 ≤ limit ∧ limit ≤ 1000 then
    .ok ⟨raw.table_name, raw.columns, raw.whereClause, raw.order_by,
      limit, raw.offset.getD 0⟩
  else
    .error ⟨"limit must be in [1,1000]"⟩

/-- All errors a get_table_data invocation can surface to the dispatcher:
a validation rejection before the tool body runs, or a database failure. -/
inductive GatewayError where
  | validation (v : ValidationError)
  | db (e : DbError)
  deriving DecidableEq

/-- The full get_table_data invocation as the dispatcher sees it: pydantic
validation of the raw arguments (lines 117-124), then the tool body
(lines 198-227). -/
def handle_get_table_data (maxRows : Nat)
    (run : String → Except DbError (List Row))
    (raw : RawTableQuery) : Except GatewayError (List Row) :=
  match TableQueryParams.validate raw with
  | .error v => .error (.validation v)
  | .ok p =>
    match get_table_data maxRows run p with
    | .ok rows => .ok rows
    | .error e => .error (.db e)

/-- The pool sizing configuration handed to QueuePool by create_db_engine
(lines 98-99): pool_size = config.DB_POOL_SIZE and
max_overflow = config.DB_MAX_OVERFLOW. -/
structure PoolConfig where
  pool_size : Nat
  max_overflow : Nat
  deriving DecidableEq

/-- An instantaneous pool state: idle connections retained by the pool,
connections checked out to callers, and callers blocked in Acquire. -/
structure PoolState where
  idle : Nat
  checkedOut : Nat
  waiting : Nat
  deriving DecidableEq

/-- The number of concurrently open database connections. -/
def PoolState.openConns (s : PoolState) : Nat := s.idle + s.checkedOut

/-- Modelled from the spec: the acquire/release discipline of SQLAlchemy's
QueuePool is library code not under src/; per spec sections 4.1 and 5 —
Acquire hands out an idle connection, else opens an overflow connection
while fewer than pool_size + max_overflow are open, else blocks the caller;
Release hands the connection to a blocked waiter when one exists, else
retains it while at most pool_size would be idle, else closes it. -/
inductive PoolStep (cfg : PoolConfig) : PoolState → PoolState → Prop where
  | acquireIdle (s : PoolState) (h : 0 < s.idle) :
      PoolStep cfg s ⟨s.idle - 1, s.checkedOut + 1, s.waiting⟩
  | acquireOverflow (s : PoolState) (h0 : s.idle = 0)
      (h : s.openConns < cfg.pool_size + cfg.max_overflow) :
      PoolStep cfg s ⟨0, s.checkedOut + 1, s.waiting⟩
  | acquireBlock (s : PoolState) (h0 : s.idle = 0)
      (h : cfg.pool_size + cfg.max_overflow ≤ s.openConns) :
      PoolStep cfg s ⟨0, s.checkedOut, s.waiting + 1⟩
  | releaseToWaiter (s : PoolState) (hc : 0 < s.checkedOut) (hw : 0 < s.waiting) :
      PoolStep cfg s ⟨s.idle, s.checkedOut, s.waiting - 1⟩
  | releaseRetain (s : PoolState) (hc : 0 < s.checkedOut) (hw : s.waiting = 0)
      (hi : s.idle < cfg.pool_size) :
      PoolStep cfg s ⟨s.idle + 1, s.checkedOut - 1, s.waiting⟩
  | releaseClose (s : PoolState) (hc : 0 < s.checkedOut) (hw : s.waiting = 0)
      (hi : cfg.pool_size ≤ s.idle) :
      PoolStep cfg s ⟨s.idle, s.checkedOut - 1, s.waiting⟩

/-- The pool states reachable from the initial empty pool (connections are
created lazily, so the pool starts with none open). -/
def ReachablePool (cfg : PoolConfig) : PoolState → Prop :=
  Relation.ReflTransGen (PoolStep cfg) ⟨0, 0, 0⟩

/-- The database URL built by create_db_engine (lines 82-93). -/
structure DbUrl where
  drivername : String
  username : String
  password : String
  host : String
  port : Int
  database : String
  query : List (String × String)
  deriving DecidableEq

/-- Embeds DatabaseConfig (lines 20-31): the validated settings consumed by
create_db_engine. -/
structure DatabaseConfig where
  DB_HOST : String
  DB_PORT : Int
  DB_USER : String
  DB_PASSWORD : String
  DB_NAME : String
  DB_POOL_SIZE : Int
  DB_POOL_RECYCLE : Int
  DB_MAX_OVERFLOW : Int
  QUERY_TIMEOUT : Int
  MAX_RESULT_ROWS : Int
  deriving DecidableEq

/-- Every setting passed to create_engine by create_db_engine
(lines 95-104). -/
structure EngineConfig where
  url : DbUrl
  poolclass : String
  pool_size : Int
  max_overflow : Int
  pool_recycle : Int
  pool_pre_ping : Bool
  pool_use_lifo : Bool
  echo : Bool
  deriving DecidableEq

/-- Embeds create_db_engine (lines 80-104): the URL carries the charset and
connect_timeout=str(QUERY_TIMEOUT) query entries; the engine is configured
with QueuePool sizing, recycling, pre-ping and LIFO handout. No other
setting is passed, in particular no per-statement execution timeout. -/
def create_db_engine (config : DatabaseConfig) : EngineConfig :=
  { url := { drivername := "mysql+pymysql"
             username := config.DB_USER
             password := config.DB_PASSWORD
             host := config.DB_HOST
             port := config.DB_PORT
             database := config.DB_NAME
             query := [("charset", "utf8mb4"),
               ("connect_timeout", toString config.QUERY_TIMEOUT)] }
    poolclass := "QueuePool"
    pool_size := config.DB_POOL_SIZE
    max_overflow := config.DB_MAX_OVERFLOW
    pool_recycle := config.DB_POOL_RECYCLE
    pool_pre_ping := true
    pool_use_lifo := true
    echo := false }

/-- Claim C1 (counterexample): the returned rows do NOT carry a truncated
flag. An underlying result of exactly maxRows rows and one of maxRows + 1
rows yield byte-identical return values, so no function of the returned
value can equal the exceeded-test; hence no truncated flag is carried. -/
theorem C1_counterexample :
    truncate_rows 1 [[("x", Value.vInt 1)]] =
      truncate_rows 1 [[("x", Value.vInt 1)], [("x", Value.vInt 1)]] ∧
    ([[("x", Value.vInt 1)]] : List Row).length ≤ 1 ∧
    ([[("x", Value.vInt 1)], [("x", Value.vInt 1)]] : List Row).length > 1 ∧
    ¬ (∃ flagOf : List Row → Bool, ∀ rows : List Row,
        flagOf (truncate_rows 1 rows) = decide (rows.length > 1)) := by
  refine ⟨rfl, by decide, by decide, ?_⟩
  rintro ⟨flagOf, hf⟩
  have h1 := hf [[("x", Value.vInt 1)]]
  have h2 := hf [[("x", Value.vInt 1)], [("x", Value.vInt 1)]]
  simp [truncate_rows, truncate_rows_log] at h1 h2
  rw [h1] at h2
  exact Bool.false_ne_true h2

/-- Claim C1 (amended): truncation is silent success, never an error: the
rows returned are those of truncate_rows, the logged warning is emitted
exactly when the underlying result exceeded maxRows, and no truncated flag
is carried in the returned rows (only the separate warning Bool records
it). -/
theorem C1_amended_thm (maxRows : Nat) (rows : List Row) :
    (truncate_rows_log maxRows rows).1 = truncate_rows maxRows rows ∧
    (truncate_rows_log maxRows rows).2 = decide (rows.length > maxRows) := by
  refine ⟨rfl, ?_⟩
  by_cases h : rows.length > maxRows <;> simp [truncate_rows_log, h]

/-- Claim C2: for both execute_query and get_table_data, a successful
underlying result of at most maxRows rows is returned unchanged and in
order; a larger one is cut to exactly the first maxRows rows, a stable
prefix of the ordered result. -/
theorem C2_thm (maxRows : Nat) :
    (∀ (run : String → List (String × Value) → Except DbError (List Row))
       (qp : QueryParams) (rows : List Row),
      run qp.query (qp.params.getD []) = Except.ok rows →
        (rows.length ≤ maxRows → execute_query maxRows run qp = Except.ok rows) ∧
        (maxRows < rows.length →
          execute_query maxRows run qp = Except.ok (rows.take maxRows) ∧
          (rows.take maxRows).length = maxRows ∧ rows.take maxRows <+: rows)) ∧
    (∀ (run : String → Except DbError (List Row))
       (p : TableQueryParams) (rows : List Row),
      run (build_query p) = Except.ok rows →
        (rows.length ≤ maxRows → get_table_data maxRows run p = Except.ok rows) ∧
        (maxRows < rows.length →
          get_table_data maxRows run p = Except.ok (rows.take maxRows) ∧
          (rows.take maxRows).length = maxRows ∧ rows.take maxRows <+: rows)) := by
  constructor
  · intro run qp rows h
    constructor
    · intro hle
      simp [execute_query, driverCallOfQuery, h, truncate_rows, truncate_rows_log,
        Nat.not_lt.mpr hle]
    · intro hgt
      refine ⟨?_, ?_, List.take_prefix _ _⟩
      · simp [execute_query, driverCallOfQuery, h, truncate_rows, truncate_rows_log, hgt]
      · simp [List.length_take]
        omega
  · intro run p rows h
    constructor
    · intro hle
      simp [get_table_data, h, truncate_rows, truncate_rows_log, Nat.not_lt.mpr hle]
    · intro hgt
      refine ⟨?_, ?_, List.take_prefix _ _⟩
      · simp [get_table_data, h, truncate_rows, truncate_rows_log, hgt]
      · simp [List.length_take]
        omega

/-- Witness for C2 at concrete inputs: a two-row result under maxRows = 1
comes back as exactly its first row, for both operations. -/
theorem C2_witness :
    execute_query 1
      (fun _ _ => Except.ok [[("x", Value.vInt 1)], [("x", Value.vInt 2)]])
      ⟨"SELECT x FROM t", none⟩ = Except.ok [[("x", Value.vInt 1)]] ∧
    get_table_data 1
      (fun _ => Except.ok [[("y", Value.vInt 3)], [("y", Value.vInt 4)]])
      ⟨"t", none, none, none, 100, 0⟩ = Except.ok [[("y", Value.vInt 3)]] := by
  have h := C2_thm 1
  exact ⟨((h.1 _ ⟨"SELECT x FROM t", none⟩
      [[("x", Value.vInt 1)], [("x", Value.vInt 2)]] rfl).2 (by decide)).1,
    ((h.2 _ ⟨"t", none, none, none, 100, 0⟩
      [[("y", Value.vInt 3)], [("y", Value.vInt 4)]] rfl).2 (by decide)).1⟩

/-- Claim C3: a write statement that fails during execution leaves the
database state unchanged and surfaces the failure as an error with no
affected-row count reported; a successful statement is committed and its
WriteResult returned. -/
theorem C3_thm (σ : Type)
    (exec : String → List (String × Value) → σ → Except DbError (σ × Int × Option Int))
    (qp : QueryParams) (db : σ) :
    (∀ e, exec qp.query (qp.params.getD []) db = Except.error e →
      execute_write exec qp db = (db, Except.error e)) ∧
    (∀ db2 n lid, exec qp.query (qp.params.getD []) db = Except.ok (db2, n, lid) →
      execute_write exec qp db = (db2, Except.ok ⟨"success", n, lid⟩)) := by
  constructor
  · intro e h
    simp [execute_write, driverCallOfWrite, h]
  · intro db2 n lid h
    simp [execute_write, driverCallOfWrite, h]

/-- Witness for C3 at concrete inputs: over the state type Nat, a failing
statement leaves the state at 7 and re-raises, a succeeding one commits the
new state 8 and reports its WriteResult. -/
theorem C3_witness :
    execute_write (σ := Nat) (fun _ _ _ => Except.error ⟨"boom"⟩)
      ⟨"INSERT INTO t(x) VALUES(:v)", none⟩ 7 = (7, Except.error ⟨"boom"⟩) ∧
    execute_write (σ := Nat) (fun _ _ n => Except.ok (n + 1, 1, some 5))
      ⟨"INSERT INTO t(x) VALUES(:v)", none⟩ 7 = (8, Except.ok ⟨"success", 1, some 5⟩) := by
  refine ⟨(C3_thm Nat _ ⟨"INSERT INTO t(x) VALUES(:v)", none⟩ 7).1 ⟨"boom"⟩ rfl, ?_⟩
  exact (C3_thm Nat _ ⟨"INSERT INTO t(x) VALUES(:v)", none⟩ 7).2 8 1 (some 5) rfl

/-- Claim C4: two-run noninterference of the parameter map over the SQL
text — for both execute_query and execute_write, the SQL string handed to
the driver is exactly the caller-supplied text and is independent of the
parameter values, which travel separately as bound values. -/
theorem C4_thm (q : String) (p1 p2 : Option (List (String × Value))) :
    (driverCallOfQuery ⟨q, p1⟩).1 = q ∧
    (driverCallOfQuery ⟨q, p1⟩).1 = (driverCallOfQuery ⟨q, p2⟩).1 ∧
    (driverCallOfWrite ⟨q, p1⟩).1 = q ∧
    (driverCallOfWrite ⟨q, p1⟩).1 = (driverCallOfWrite ⟨q, p2⟩).1 ∧
    (driverCallOfQuery ⟨q, p1⟩).2 = p1.getD [] ∧
    (driverCallOfWrite ⟨q, p1⟩).2 = p1.getD [] := by
  exact ⟨rfl, rfl, rfl, rfl, rfl, rfl⟩

/-- Claim C5: a provided limit outside [1,1000] is rejected by validation,
and the rejection is independent of the database (no database access
occurs: the outcome does not depend on the driver); an omitted limit
defaults to 100 and validation succeeds. -/
theorem C5_thm (raw : RawTableQuery) :
    (∀ l : Int, raw.limit = some l → (l < 1 ∨ 1000 < l) →
      TableQueryParams.validate raw = Except.error ⟨"limit must be in [1,1000]"⟩ ∧
      ∀ (maxRows : Nat) (run1 run2 : String → Except DbError (List Row)),
        handle_get_table_data maxRows run1 raw = handle_get_table_data maxRows run2 raw) ∧
    (raw.limit = none → ∃ p, TableQueryParams.validate raw = Except.ok p ∧
      p.limit = 100) := by
  constructor
  · intro l hl hout
    have hv : TableQueryParams.validate raw =
        Except.error ⟨"limit must be in [1,1000]"⟩ := by
      simp only [TableQueryParams.validate, hl, Option.getD_some]
      rw [if_neg]
      omega
    refine ⟨hv, ?_⟩
    intro maxRows run1 run2
    simp [handle_get_table_data, hv]
  · intro hn
    refine ⟨⟨raw.table_name, raw.columns, raw.whereClause, raw.order_by,
      100, raw.offset.getD 0⟩, ?_, rfl⟩
    simp [TableQueryParams.validate, hn]

/-- Witness for C5 at concrete inputs: limit 0 is rejected independently of
the driver, and an omitted limit validates to 100. -/
theorem C5_witness :
    TableQueryParams.validate ⟨"t", none, none, none, some 0, none⟩ =
      Except.error ⟨"limit must be in [1,1000]"⟩ ∧
    handle_get_table_data 1000 (fun _ => Except.ok [])
        ⟨"t", none, none, none, some 0, none⟩ =
      handle_get_table_data 1000 (fun _ => Except.error ⟨"db reached"⟩)
        ⟨"t", none, none, none, some 0, none⟩ ∧
    TableQueryParams.validate ⟨"t", none, none, none, none, none⟩ =
      Except.ok ⟨"t", none, none, none, 100, 0⟩ := by
  have h1 := (C5_thm ⟨"t", none, none, none, some 0, none⟩).1 0 rfl (Or.inl (by decide))
  exact ⟨h1.1, h1.2 1000 _ _, rfl⟩

/-- Claim C6 (counterexample): a negative offset is NOT rejected —
validation accepts offset -9 (only limit carries a constraint), and the
request reaches the database: the outcome depends on the driver, which is
handed the composed SQL with OFFSET -9 interpolated. -/
theorem C6_counterexample :
    TableQueryParams.validate ⟨"t", none, none, none, none, some (-9)⟩ =
      Except.ok ⟨"t", none, none, none, 100, -9⟩ ∧
    handle_get_table_data 1000 (fun _ => Except.ok [])
        ⟨"t", none, none, none, none, some (-9)⟩ = Except.ok [] ∧
    handle_get_table_data 1000 (fun _ => Except.error ⟨"db reached"⟩)
        ⟨"t", none, none, none, none, some (-9)⟩ =
      Except.error (GatewayError.db ⟨"db reached"⟩) ∧
    build_query ⟨"t", none, none, none, 100, -9⟩ =
      "SELECT * FROM t LIMIT 100 OFFSET -9" := by
  exact ⟨rfl, rfl, rfl, rfl⟩

/-- Claim C6 (amended): an omitted offset defaults to 0; but no offset ≥ 0
constraint is declared, so validation passes any provided integer offset
through unchanged (negative included) and its acceptance never depends on
the offset. -/
theorem C6_amended_thm (raw : RawTableQuery) :
    (raw.offset = none → ∀ p, TableQueryParams.validate raw = Except.ok p →
      p.offset = 0) ∧
    (∀ o p, raw.offset = some o → TableQueryParams.validate raw = Except.ok p →
      p.offset = o) ∧
    (∀ o, raw.offset = some o →
      ((∃ p, TableQueryParams.validate raw = Except.ok p) ↔
       (∃ p, TableQueryParams.validate
          ⟨raw.table_name, raw.columns, raw.whereClause, raw.order_by,
            raw.limit, none⟩ = Except.ok p))) := by
  refine ⟨?_, ?_, ?_⟩
  · intro hn p hp
    simp only [TableQueryParams.validate, hn] at hp
    split at hp
    · cases hp
      rfl
    · cases hp
  · intro o p ho hp
    simp only [TableQueryParams.validate, ho, Option.getD_some] at hp
    split at hp
    · cases hp
      rfl
    · cases hp
  · intro o ho
    constructor
    · rintro ⟨p, hp⟩
      simp only [TableQueryParams.validate] at hp ⊢
      split at hp
      · rename_i hc
        exact ⟨_, by rw [if_pos hc]⟩
      · cases hp
    · rintro ⟨p, hp⟩
      simp only [TableQueryParams.validate] at hp ⊢
      split at hp
      · rename_i hc
        exact ⟨_, by rw [if_pos hc]⟩
      · cases hp

/-- Witness for C6 (amended) at concrete inputs: omitted offset validates
to 0, provided offset -3 validates to -3. -/
theorem C6_amended_witness :
    (⟨"t", none, none, none, 100, 0⟩ : TableQueryParams).offset = 0 ∧
    (⟨"t", none, none, none, 100, -3⟩ : TableQueryParams).offset = -3 := by
  refine ⟨(C6_amended_thm ⟨"t", none, none, none, none, none⟩).1 rfl _ rfl, ?_⟩
  exact (C6_amended_thm ⟨"t", none, none, none, none, some (-3)⟩).2.1 (-3) _ rfl rfl

/-- Claim C7: raises-iff for every exposed operation — a database failure
is re-raised to the dispatcher unmodified and never converted into a
success payload, and when the underlying execution succeeds the operation
returns a success payload. -/
theorem C7_thm :
    (∀ (g : Except DbError (List String)),
      (∀ e, g = Except.error e → list_tables g = Except.error e) ∧
      (∀ ts, g = Except.ok ts → list_tables g = Except.ok ts)) ∧
    (∀ (gc : String → Except DbError (List ColumnRaw)) (t : String),
      (∀ e, gc t = Except.error e → describe_table gc t = Except.error e) ∧
      (∀ cols, gc t = Except.ok cols →
        describe_table gc t = Except.ok (cols.map describe_row))) ∧
    (∀ (maxRows : Nat)
       (run : String → List (String × Value) → Except DbError (List Row))
       (qp : QueryParams),
      (∀ e, run qp.query (qp.params.getD []) = Except.error e →
        execute_query maxRows run qp = Except.error e) ∧
      (∀ rows, run qp.query (qp.params.getD []) = Except.ok rows →
        execute_query maxRows run qp = Except.ok (truncate_rows maxRows rows))) ∧
    (∀ (σ : Type)
       (exec : String → List (String × Value) → σ → Except DbError (σ × Int × Option Int))
       (qp : QueryParams) (db : σ),
      (∀ e, exec qp.query (qp.params.getD []) db = Except.error e →
        (execute_write exec qp db).2 = Except.error e) ∧
      (∀ r, exec qp.query (qp.params.getD []) db = Except.ok r →
        (execute_write exec qp db).2 = Except.ok ⟨"success", r.2.1, r.2.2⟩)) ∧
    (∀ (maxRows : Nat) (run : String → Except DbError (List Row))
       (p : TableQueryParams),
      (∀ e, run (build_query p) = Except.error e →
        get_table_data maxRows run p = Except.error e) ∧
      (∀ rows, run (build_query p) = Except.ok rows →
        get_table_data maxRows run p = Except.ok (truncate_rows maxRows rows))) := by
  refine ⟨?_, ?_, ?_, ?_, ?_⟩
  · intro g
    exact ⟨fun e h => by simp [list_tables, h], fun ts h => by simp [list_tables, h]⟩
  · intro gc t
    exact ⟨fun e h => by simp [describe_table, h],
      fun cols h => by simp [describe_table, h]⟩
  · intro maxRows run qp
    exact ⟨fun e h => by simp [execute_query, driverCallOfQuery, h],
      fun rows h => by simp [execute_query, driverCallOfQuery, h]⟩
  · intro σ exec qp db
    refine ⟨fun e h => by simp [execute_write, driverCallOfWrite, h], ?_⟩
    rintro ⟨db2, n, lid⟩ h
    simp [execute_write, driverCallOfWrite, h]
  · intro maxRows run p
    exact ⟨fun e h => by simp [get_table_data, h],
      fun rows h => by simp [get_table_data, h]⟩

/-- Witness for C7 at concrete inputs: each of the five operations
re-raises a concrete driver error unmodified. -/
theorem C7_witness :
    list_tables (Except.error ⟨"down"⟩) = Except.error ⟨"down"⟩ ∧
    describe_table (fun _ => Except.error ⟨"down"⟩) "t" = Except.error ⟨"down"⟩ ∧
    execute_query 1000 (fun _ _ => Except.error ⟨"down"⟩) ⟨"SELECT 1", none⟩ =
      Except.error ⟨"down"⟩ ∧
    (execute_write (σ := Nat) (fun _ _ _ => Except.error ⟨"down"⟩)
      ⟨"DELETE FROM t", none⟩ 0).2 = Except.error ⟨"down"⟩ ∧
    get_table_data 1000 (fun _ => Except.error ⟨"down"⟩)
      ⟨"t", none, none, none, 100, 0⟩ = Except.error ⟨"down"⟩ := by
  refine ⟨(C7_thm.1 _).1 ⟨"down"⟩ rfl, (C7_thm.2.1 _ "t").1 ⟨"down"⟩ rfl,
    (C7_thm.2.2.1 1000 _ ⟨"SELECT 1", none⟩).1 ⟨"down"⟩ rfl,
    (C7_thm.2.2.2.1 Nat _ ⟨"DELETE FROM t", none⟩ 0).1 ⟨"down"⟩ rfl,
    (C7_thm.2.2.2.2 1000 _ ⟨"t", none, none, none, 100, 0⟩).1 ⟨"down"⟩ rfl⟩

/-- Claim C8: for a table name absent from the catalog, describe_table
surfaces an error, never a successful empty column list. -/
theorem C8_thm (catalog : List (String × List ColumnRaw)) (t : String)
    (h : catalog.lookup t = none) :
    describe_table (inspector_get_columns catalog) t =
      Except.error ⟨"NoSuchTableError: " ++ t⟩ ∧
    describe_table (inspector_get_columns catalog) t ≠ Except.ok [] := by
  constructor
  · simp [describe_table, inspector_get_columns, h]
  · simp [describe_table, inspector_get_columns, h]

/-- Witness for C8 at a concrete input: the empty catalog and the table
name missing. -/
theorem C8_witness :
    describe_table (inspector_get_columns []) "missing" =
      Except.error ⟨"NoSuchTableError: missing"⟩ := by
  exact (C8_thm [] "missing" rfl).1

/-- A single pool step never pushes the number of open connections past
pool_size + max_overflow. -/
lemma poolStep_bound {cfg : PoolConfig} {s s' : PoolState}
    (hs : s.openConns ≤ cfg.pool_size + cfg.max_overflow)
    (h : PoolStep cfg s s') :
    s'.openConns ≤ cfg.pool_size + cfg.max_overflow := by
  cases h <;> simp_all [PoolState.openConns] <;> omega

/-- Claim C9: in every reachable pool state the number of open connections
is bounded by pool_size + max_overflow; from a saturated pool with no idle
connection a further Acquire can only block (it joins the waiters and opens
no connection), and no step from such a state increases the number of open
connections. -/
theorem C9_thm (cfg : PoolConfig) (s : PoolState) (hr : ReachablePool cfg s) :
    s.openConns ≤ cfg.pool_size + cfg.max_overflow ∧
    (s.idle = 0 → cfg.pool_size + cfg.max_overflow ≤ s.openConns →
      PoolStep cfg s ⟨0, s.checkedOut, s.waiting + 1⟩ ∧
      ∀ s', PoolStep cfg s s' → s'.openConns ≤ s.openConns) := by
  constructor
  · induction hr with
    | refl => simp [PoolState.openConns]
    | tail _ hstep ih => exact poolStep_bound ih hstep
  · intro hidle hfull
    refine ⟨PoolStep.acquireBlock s hidle hfull, ?_⟩
    intro s' hstep
    cases hstep with
    | acquireIdle h => omega
    | acquireOverflow h0 h => omega
    | acquireBlock h0 h => simp [PoolState.openConns]
    | releaseToWaiter hc hw => simp [PoolState.openConns]
    | releaseRetain hc hw hi => simp [PoolState.openConns]; omega
    | releaseClose hc hw hi => simp [PoolState.openConns]

/-- Witness for C9 at the spec's concrete scenario pool_size = 2,
max_overflow = 1: the fully checked-out state with three open connections
is reachable, respects the bound, and a fourth simultaneous Acquire blocks
(the waiter count rises, no connection opens). -/
theorem C9_witness :
    (⟨0, 3, 0⟩ : PoolState).openConns ≤ 2 + 1 ∧
    PoolStep ⟨2, 1⟩ ⟨0, 3, 0⟩ ⟨0, 3, 1⟩ := by
  have s1 : PoolStep ⟨2, 1⟩ ⟨0, 0, 0⟩ ⟨0, 1, 0⟩ :=
    PoolStep.acquireOverflow ⟨0, 0, 0⟩ rfl (by decide)
  have s2 : PoolStep ⟨2, 1⟩ ⟨0, 1, 0⟩ ⟨0, 2, 0⟩ :=
    PoolStep.acquireOverflow ⟨0, 1, 0⟩ rfl (by decide)
  have s3 : PoolStep ⟨2, 1⟩ ⟨0, 2, 0⟩ ⟨0, 3, 0⟩ :=
    PoolStep.acquireOverflow ⟨0, 2, 0⟩ rfl (by decide)
  have hr : ReachablePool ⟨2, 1⟩ ⟨0, 3, 0⟩ :=
    Relation.ReflTransGen.head s1 (Relation.ReflTransGen.head s2
      (Relation.ReflTransGen.single s3))
  have h := C9_thm ⟨2, 1⟩ ⟨0, 3, 0⟩ hr
  exact ⟨h.1, (h.2 rfl (by decide)).1⟩

/-- Claim C10: QUERY_TIMEOUT flows only into the connect_timeout entry of
the URL query string — changing it changes nothing else in the engine
configuration (two-run statement), and the statement-execution models take
no timeout at all, so MAX_RESULT_ROWS-driven behavior is unaffected by it. -/
theorem C10_thm (config : DatabaseConfig) (t : Int) :
    (create_db_engine config).url.query =
      [("charset", "utf8mb4"), ("connect_timeout", toString config.QUERY_TIMEOUT)] ∧
    create_db_engine { config with QUERY_TIMEOUT := t } =
      { create_db_engine config with
          url := { (create_db_engine config).url with
            query := [("charset", "utf8mb4"), ("connect_timeout", toString t)] } } ∧
    ({ config with QUERY_TIMEOUT := t }).MAX_RESULT_ROWS = config.MAX_RESULT_ROWS := by
  exact ⟨rfl, rfl, rfl⟩

end MySQLMCP
